import Mathlib

/-!
# WTalk bootstrap pipeline (`wtalk.c`)

A shallow embedding of `get_str_value` and `wtalk` from `wtalk.c`.

Conventions of the embedding:

* a C string is the list of its characters before the terminating NUL
  (`CStr`) and `strlen` is the length of that list;
* the stack arrays of `wtalk` keep their capacity: `sprintf` into `char
  buf[n]` needs the formatted string and its NUL to fit, and `boardtype[64]`
  must hold a NUL to be read as a string. Past that the C program has no
  defined behaviour; the model ends the run there with `Exit.overrun` and
  follows it no further;
* a pointer that may be `NULL` is an `Option`;
* the outside world (files, the JSON loader of `wjson.c`, `strdup`,
  `system`, `fork`, `execvp`, `open`, `write`) is a parameter `Env` giving
  the result of each call; every call that is visible from outside is
  appended to a trace of `Event`s;
* the globals of `wtalk.c` and the local `wifi_pid` live in `State`;
* `fork` returns twice: `Env.fork_rc` is the value returned in the process
  that is being followed, so `0` follows the child and a positive value
  follows the parent.
-/

namespace WTalk

/-- A C string: its characters up to, not including, the terminating NUL. -/
abbrev CStr := List Char

/-- A C string literal. -/
def cstr (s : String) : CStr := s.toList

/-- C `strlen`. -/
def strlen (s : CStr) : Nat := s.length

/-- C `tolower` in the "C" locale (the program never calls `setlocale`):
only `A`..`Z` change. -/
def tolower (c : Char) : Char := c.toLower

/-- The macro `BOARDTYPE_PATH`. -/
def BOARDTYPE_PATH : CStr := cstr "/etc/wyliodrin/boardtype"

/-- The macro `SETTINGS_PATH`. -/
def SETTINGS_PATH : CStr := cstr "/etc/wyliodrin/settings_"

/-- The path literal of the resolver file. -/
def RESOLV_PATH : CStr := cstr "/etc/resolv.conf"

/-- A jansson value (`json_t`). An object is the list of its members. -/
inductive Json where
  | null : Json
  | bool (b : Bool) : Json
  | integer (n : Int) : Json
  | real (mantissa exponent : Int) : Json
  | string (s : CStr) : Json
  | array (xs : List Json) : Json
  | object (members : List (CStr × Json)) : Json

/-- jansson `json_object_get`: the value stored under `key`, `NULL` when
`json` is not an object or has no such key. -/
def json_object_get (json : Json) (key : CStr) : Option Json :=
  match json with
  | .object members => members.lookup key
  | _ => none

/-- jansson `json_is_string`. -/
def json_is_string : Json → Bool
  | .string _ => true
  | _ => false

/-- jansson `json_is_boolean`. -/
def json_is_boolean : Json → Bool
  | .bool _ => true
  | _ => false

/-- jansson `json_is_true`. -/
def json_is_true : Json → Bool
  | .bool true => true
  | _ => false

/-- jansson `json_string_value`: `NULL` when the value is not a string. -/
def json_string_value : Json → Option CStr
  | .string s => some s
  | _ => none

/-- `get_str_value` of `wtalk.c`. -/
def get_str_value (json : Json) (key : CStr) : Option CStr :=
  match json_object_get json key with
  | none => none
  | some value_json =>
    if !json_is_string value_json then none else json_string_value value_json

/-- The outside world: what each external call returns. -/
structure Env where
  /-- whether `open(BOARDTYPE_PATH, O_RDONLY)` returns a descriptor -/
  boardtype_open : Bool
  /-- the bytes of the boardtype file as `read` delivers them (`none`:
  `read` returns `-1`); at most the first 64 are stored -/
  boardtype_read : Option CStr
  /-- `file_to_json_t` of `wjson.c`: the parsed document, or `NULL` -/
  file_to_json_t : CStr → Option Json
  /-- whether the `k`-th `strdup` of `wtalk` gets its memory -/
  strdup_ok : Nat → Bool
  /-- return value of `system(command)` -/
  system : CStr → Int
  /-- return value of `fork()` in the process that is followed -/
  fork_rc : Int
  /-- whether `execvp` replaces the process image -/
  execvp_ok : Bool
  /-- whether `open("/etc/resolv.conf", O_WRONLY | O_TRUNC)` returns a
  descriptor -/
  resolv_open : Bool
  /-- return value of `write(resolv_fd, buf, count)` -/
  write : CStr → Int

/-- An externally visible call made by `wtalk`. -/
inductive Event where
  | open_ (pathname : CStr) : Event
  | file_to_json_t (filename : CStr) : Event
  | system (command : CStr) : Event
  | fork (rc : Int) : Event
  | execvp (args : List CStr) : Event
  | werr (msg : String) : Event
  | write (buf : CStr) (count : Nat) : Event
  | waitpid (pid : Int) : Event
  | xmpp_connect (jid : Option CStr) (pass : CStr) : Event
  deriving DecidableEq, Repr

/-- How the followed process ends. -/
inductive Exit where
  /-- `wtalk` ran to its last line and returned -/
  | returned : Exit
  /-- a `wfatal` fired -/
  | wfatal (msg : String) : Exit
  /-- a `wsyserr` fired -/
  | wsyserr (msg : String) : Exit
  /-- `execvp` replaced the process image (the forked child) -/
  | exec : Exit
  /-- `exit(EXIT_FAILURE)` in the forked child after a failed `execvp` -/
  | exit_failure : Exit
  /-- the run read or wrote past the end of the named stack array: from here
  on the C program has no defined behaviour and the model stops -/
  | overrun (array : String) : Exit
  deriving DecidableEq, Repr

/-- The globals of `wtalk.c`, the local `wifi_pid`, and the trace. -/
structure State where
  jid_str : Option CStr := none
  owner_str : Option CStr := none
  mount_file_str : Option CStr := none
  build_file_str : Option CStr := none
  board_str : Option CStr := none
  privacy : Bool := false
  wifi_pid : Int := -1
  trace : List Event := []
  deriving DecidableEq, Repr

/-- One step: it either goes on with a value or ends the process. -/
inductive Step (α : Type) where
  | ok (a : α) (s : State) : Step α
  | halt (e : Exit) (s : State) : Step α

/-- Computations over `State` that may end the process. -/
def M (α : Type) : Type := State → Step α

instance : Monad M where
  pure a := fun s => .ok a s
  bind m f := fun s =>
    match m s with
    | .ok a s1 => f a s1
    | .halt e s1 => .halt e s1

/-- Append a call to the trace. -/
def emit (e : Event) : M Unit := fun s => .ok () { s with trace := s.trace ++ [e] }

/-- Modelled from the spec: the macro `wfatal` of `winternals/winternals.h`,
which is not among the sources. A fatal configuration error ends the process
at once when the assertion holds. -/
def wfatal (assertion : Bool) (msg : String) : M Unit := fun s =>
  if assertion then .halt (.wfatal msg) s else .ok () s

/-- Modelled from the spec: the macro `wsyserr` of `winternals/winternals.h`,
which is not among the sources. A fatal system error ends the process at once
when the assertion holds. -/
def wsyserr (assertion : Bool) (msg : String) : M Unit := fun s =>
  if assertion then .halt (.wsyserr msg) s else .ok () s

/-- The pattern `wfatal(p == NULL, msg)`: past it the pointer is not `NULL`. -/
def wfatal_null {α : Type} (p : Option α) (msg : String) : M α := fun s =>
  match p with
  | none => .halt (.wfatal msg) s
  | some a => .ok a s

/-- Modelled from the spec: the macro `werr` of `winternals/winternals.h`,
which is not among the sources. It logs and goes on. -/
def werr (msg : String) : M Unit := emit (.werr msg)

/-- End the followed process. -/
def halt {α : Type} (e : Exit) : M α := fun s => .halt e s

/-- Change the state. -/
def modify (f : State → State) : M Unit := fun s => .ok () (f s)

/-- C `strdup`, the `k`-th call in `wtalk`. -/
def strdup (env : Env) (k : Nat) (s : CStr) : Option CStr :=
  if env.strdup_ok k then some s else none

/-- End the run at an access past the end of `array` when `assertion` holds. -/
def overrun (assertion : Bool) (array : String) : M Unit := fun s =>
  if assertion then .halt (.overrun array) s else .ok () s

/-- The call `sprintf(array, ...)` for `char array[cap]`, `formatted` being what
the format and its arguments expand to: the characters and the terminating NUL
are stored when they fit, and the call writes past the array when they do not.
(`sprintf` into memory reports no error, so the test `rc_int < 0` that follows
each call in the source never fires.) -/
def sprintf (cap : Nat) (array : String) (formatted : CStr) : M CStr := fun s =>
  if strlen formatted + 1 ≤ cap then .ok formatted s else .halt (.overrun array) s

/-- Whether `char boardtype[64]` holds a terminating NUL after
`memset(boardtype, 0, 64)` and `read(boardtype_fd, boardtype, 64)`: fewer than
64 bytes were stored, or one of the stored bytes is NUL. -/
def boardtype_terminated (rd : Option CStr) : Bool :=
  decide (((rd.getD []).take 64).length < 64) || ((rd.getD []).take 64).contains (Char.ofNat 0)

/-- The C string held by `char boardtype[64]` after `memset(boardtype, 0, 64)`
and `read(boardtype_fd, boardtype, 64)`, when the array is terminated: at most
64 bytes are stored and the string ends at the first NUL. -/
def boardtype_buf (rd : Option CStr) : CStr :=
  ((rd.getD []).take 64).takeWhile (fun c => c != Char.ofNat 0)

/-- The loop `for (i = 0; i < strlen(p); i++) p[i] = tolower(p[i]);`,
entered at index `i`. -/
def lower_loop (p : CStr) (i : Nat) : CStr :=
  if h : i < strlen p then
    lower_loop (p.set i (tolower (p.get ⟨i, h⟩))) (i + 1)
  else p
termination_by strlen p - i
decreasing_by
  simp only [strlen, List.length_set] at h ⊢
  omega

/-- Lines 106-110 of `wtalk`: set privacy based on the privacy value of
wyliodrin.json, if it exists. -/
def wtalk_privacy (config_json : Json) : M Unit :=
  match json_object_get config_json (cstr "privacy") with
  | none => pure ()
  | some privacy_json =>
    if json_is_boolean privacy_json && json_is_true privacy_json then
      modify (fun s => { s with privacy := true })
    else pure ()

/-- What `"%s%s.json"` expands to for `SETTINGS_PATH` and `boardtype`. -/
def settings_path_of (boardtype : CStr) : CStr :=
  SETTINGS_PATH ++ boardtype ++ cstr ".json"

/-- What the resolution part of `wtalk` hands to the rest of the function:
the locals and the values the globals point to. -/
structure Resolved where
  boardtype : CStr
  settings_json : Json
  config_json : Json
  mount_file_str : CStr
  board_str : CStr
  jid_str : Option CStr
  password_str : CStr

/-- Lines 80-150 of `wtalk`: board type, the two documents, the required
fields, lowercase owner. -/
def wtalk_resolve (env : Env) : M Resolved := do
  -- Get the type of board from the boardtype file
  emit (.open_ BOARDTYPE_PATH)
  wsyserr (!env.boardtype_open) "open"
  let boardtype := boardtype_buf env.boardtype_read
  wsyserr (env.boardtype_read == none) "read"
  -- Get the path of settings_<boardtype> file
  overrun (!boardtype_terminated env.boardtype_read) "boardtype"
  let settings_path ← sprintf 128 "settings_path" (settings_path_of boardtype)
  -- Get the content from the settings_<boardtype> file in a json_object
  emit (.file_to_json_t settings_path)
  let settings_json ← wfatal_null (env.file_to_json_t settings_path) "Invalid JSON is %s"
  -- Get config_file value
  let config_file_str ← wfatal_null (get_str_value settings_json (cstr "config_file"))
    "No non-empty config_file key of type string in %s"
  wfatal (strlen config_file_str == 0) "No non-empty config_file key of type string in %s"
  -- Get the content from the wyliodrin.json file in a json object
  emit (.file_to_json_t config_file_str)
  let config_json ← wfatal_null (env.file_to_json_t config_file_str) "Invalid JSON in %s"
  -- Set privacy based on privacy value from wyliodrin.json (if exists)
  wtalk_privacy config_json
  -- Get mountFile value
  let mount_file ← wfatal_null (get_str_value settings_json (cstr "mountFile"))
    "No non-empty mountFile key of type string in %s"
  modify (fun s => { s with mount_file_str := strdup env 0 mount_file })
  let mount_file_str ← wfatal_null (strdup env 0 mount_file) "strdup"
  -- Get buildFile value
  let build_file ← wfatal_null (get_str_value settings_json (cstr "buildFile"))
    "No non-empty buildFile key of type string in %s"
  modify (fun s => { s with build_file_str := strdup env 1 build_file })
  let _ ← wfatal_null (strdup env 1 build_file) "strdup"
  -- Get the board value
  let board ← wfatal_null (get_str_value settings_json (cstr "board"))
    "No non-empty board key of type string in %s"
  modify (fun s => { s with board_str := strdup env 2 board })
  let board_str ← wfatal_null (strdup env 2 board) "strdup"
  -- Get jid value from wyliodrin.json
  let jid ← wfatal_null (get_str_value config_json (cstr "jid"))
    "No non-empty jid key of type string in %s"
  let jid_str := strdup env 3 jid
  modify (fun s => { s with jid_str := jid_str })
  -- Get password value from wyliodrin.json
  let password_str ← wfatal_null (get_str_value config_json (cstr "password"))
    "No non-empty password key of type string in %s"
  -- Get owner value from wyliodrin.json
  let owner ← wfatal_null (get_str_value config_json (cstr "owner"))
    "No non-empty owner key of type string in %s"
  modify (fun s => { s with owner_str := strdup env 4 owner })
  let p ← wfatal_null (strdup env 4 owner) "strdup"
  -- Convert owner to lowercase
  modify (fun s => { s with owner_str := some (lower_loop p 0) })
  pure { boardtype := boardtype, settings_json := settings_json, config_json := config_json,
         mount_file_str := mount_file_str, board_str := board_str, jid_str := jid_str,
         password_str := password_str }

/-- Lines 152-159 of `wtalk`: unmount the mountFile. -/
def wtalk_umount (env : Env) (board_str mount_file_str : CStr) : M Unit := do
  if board_str != cstr "server" then
    let umount_cmd ← sprintf 128 "umount_cmd" (cstr "umount " ++ mount_file_str)
    emit (.system umount_cmd)
    wsyserr (env.system umount_cmd == -1) "system"
  else pure ()

/-- Lines 161-189 of `wtalk`: configure wifi of Edison boards. -/
def wtalk_wifi (env : Env) (boardtype : CStr) (config_json : Json) : M Unit := do
  if boardtype == cstr "edison" then
    match get_str_value config_json (cstr "ssid") with
    | none => pure ()
    | some ssid_str =>
      if strlen ssid_str != 0 then
        match get_str_value config_json (cstr "psk") with
        | none => pure ()
        | some psk_str =>
          -- Set wifi type: OPEN or WPA-PSK (both fit `char wifi_type[16]`)
          let wifi_type := if strlen psk_str == 0 then cstr "OPEN" else cstr "WPA-PSK"
          -- Fork and exec configure_edison
          emit (.fork env.fork_rc)
          modify (fun s => { s with wifi_pid := env.fork_rc })
          wfatal (env.fork_rc == -1) "fork"
          if env.fork_rc == 0 then
            -- Child
            let args := [cstr "configure_edison", cstr "--changeWiFi",
              wifi_type, ssid_str, psk_str]
            emit (.execvp args)
            if env.execvp_ok then halt .exec
            else do
              werr "configure_edison failed"
              halt .exit_failure
          else pure ()
      else pure ()
  else pure ()

/-- Lines 191-204 of `wtalk`: update /etc/resolv.conf. -/
def wtalk_resolv (env : Env) (config_json : Json) : M Unit := do
  match get_str_value config_json (cstr "nameserver") with
  | none => pure ()
  | some nameserver_str =>
    if strlen nameserver_str != 0 then
      emit (.open_ RESOLV_PATH)
      if !env.resolv_open then
        werr "Could not open resolv.conf"
      else do
        let to_write ← sprintf 128 "to_write" (cstr "nameserver " ++ nameserver_str)
        emit (.write to_write (strlen to_write))
        wsyserr (env.write to_write == -1) "write"
    else pure ()

/-- Lines 206-209 of `wtalk`: wait for wifi configuration. -/
def wtalk_join : M Unit := fun s =>
  if s.wifi_pid != -1 then emit (.waitpid s.wifi_pid) s else .ok () s

/-- The function `wtalk` of `wtalk.c`. -/
def wtalk (env : Env) : M Unit := do
  let r ← wtalk_resolve env
  wtalk_umount env r.board_str r.mount_file_str
  wtalk_wifi env r.boardtype r.config_json
  wtalk_resolv env r.config_json
  wtalk_join
  -- Connect to XMPP server
  emit (.xmpp_connect r.jid_str r.password_str)

/-- The outcome of a process: how it ended and the state it ended in. -/
structure Result where
  exit : Exit
  state : State
  deriving DecidableEq, Repr

/-- The outcome of a step that ends `wtalk`: past the last line the function
returns. -/
def Step.result : Step Unit → Result
  | .ok _ s => { exit := .returned, state := s }
  | .halt e s => { exit := e, state := s }

/-- Run `wtalk` from the initial values of the globals. -/
def run (env : Env) : Result := (wtalk env {}).result

/-! ## Reading a trace -/

/-- The `(jid, pass)` pairs of the `xmpp_connect` calls, in order. -/
def xmpp_calls (t : List Event) : List (Option CStr × CStr) :=
  t.filterMap fun e => match e with
    | .xmpp_connect jid pass => some (jid, pass)
    | _ => none

/-- The commands handed to `system`, in order. -/
def system_calls (t : List Event) : List CStr :=
  t.filterMap fun e => match e with
    | .system command => some command
    | _ => none

/-- The return values of the `fork` calls, in order. -/
def fork_calls (t : List Event) : List Int :=
  t.filterMap fun e => match e with
    | .fork rc => some rc
    | _ => none

/-- The argument vectors handed to `execvp`, in order. -/
def execvp_calls (t : List Event) : List (List CStr) :=
  t.filterMap fun e => match e with
    | .execvp args => some args
    | _ => none

/-- The pids waited for, in order. -/
def waitpid_calls (t : List Event) : List Int :=
  t.filterMap fun e => match e with
    | .waitpid pid => some pid
    | _ => none

/-- The paths opened, in order. -/
def open_calls (t : List Event) : List CStr :=
  t.filterMap fun e => match e with
    | .open_ pathname => some pathname
    | _ => none

/-- The `(buf, count)` pairs handed to `write`, in order. -/
def write_calls (t : List Event) : List (CStr × Nat) :=
  t.filterMap fun e => match e with
    | .write buf count => some (buf, count)
    | _ => none

/-- The file names handed to `file_to_json_t`, in order. -/
def load_calls (t : List Event) : List CStr :=
  t.filterMap fun e => match e with
    | .file_to_json_t filename => some filename
    | _ => none

/-! ## Hypotheses about a run -/

/-- The path `wtalk` builds for the settings document. -/
def settings_path (env : Env) : CStr :=
  settings_path_of (boardtype_buf env.boardtype_read)

/-- The boardtype file can be read, `settings` is the document at the
settings path and `config` the document at `config_file`. -/
def Loads (env : Env) (settings : Json) (config_file : CStr) (config : Json) : Prop :=
  env.boardtype_open = true ∧ env.boardtype_read ≠ none ∧
  env.file_to_json_t (settings_path env) = some settings ∧
  env.file_to_json_t config_file = some config

/-- The field `key` of `doc` is present, of string type, with value `v`. -/
def StrField (doc : Json) (key : String) (v : CStr) : Prop :=
  get_str_value doc (cstr key) = some v

/-- The field `key` of `doc` is present, of string type and not empty. -/
def Required (doc : Json) (key : String) (v : CStr) : Prop :=
  StrField doc key v ∧ v ≠ []

/-! ## Definitions used in the proofs

For each block after resolution: the calls it makes, whether it ends the
process, and (for the wifi block) the value left in `wifi_pid`. These
functions are read off the continuation forms of the blocks;
`wtalk_rest_result` puts them together. -/

/-- The state a step ends in. -/
def Step.state {α : Type} : Step α → State
  | .ok _ s => s
  | .halt _ s => s

/-- Whether the document holds the boolean `true` under `privacy`. -/
def privacy_flag (config : Json) : Bool :=
  match json_object_get config (cstr "privacy") with
  | some (.bool true) => true
  | _ => false

/-- The calls of the resolution part: opening the boardtype file and loading
a document. -/
def Event.is_setup : Event → Bool
  | .open_ pathname => pathname == BOARDTYPE_PATH
  | .file_to_json_t _ => true
  | _ => false

/-- The fatal ways to end: `wfatal` and `wsyserr`. -/
def Exit.is_fatal : Exit → Bool
  | .wfatal _ => true
  | .wsyserr _ => true
  | _ => false

/-- A step that ended the process ended it fatally. -/
def HaltsFatally {α : Type} : Step α → Prop
  | .ok _ _ => True
  | .halt e _ => e.is_fatal = true

/-- What holds of the locals when resolution gets through. -/
structure ResolvedBy (env : Env) (r : Resolved) : Prop where
  terminated : boardtype_terminated env.boardtype_read = true
  boardtype : r.boardtype = boardtype_buf env.boardtype_read
  settings : env.file_to_json_t (settings_path env) = some r.settings_json
  config : ∃ cf, get_str_value r.settings_json (cstr "config_file") = some cf ∧
    env.file_to_json_t cf = some r.config_json ∧ cf ≠ []
  mount : get_str_value r.settings_json (cstr "mountFile") = some r.mount_file_str
  build : ∃ b, get_str_value r.settings_json (cstr "buildFile") = some b
  owner : ∃ o, get_str_value r.config_json (cstr "owner") = some o
  board : get_str_value r.settings_json (cstr "board") = some r.board_str
  password : get_str_value r.config_json (cstr "password") = some r.password_str
  jid : ∃ jid, get_str_value r.config_json (cstr "jid") = some jid ∧
    r.jid_str = strdup env 3 jid

/-- The step `st`, taken from `s`, only added setup calls to the trace and
left `wifi_pid` alone. -/
def SetupOnly {α : Type} (s : State) (st : Step α) : Prop :=
  st.state.wifi_pid = s.wifi_pid ∧
  ∃ evs, st.state.trace = s.trace ++ evs ∧ evs.all Event.is_setup = true

/-- When the step got through, its locals are the resolved ones. -/
def Sound (env : Env) : Step Resolved → Prop
  | .ok r _ => ResolvedBy env r
  | .halt _ _ => True

/-- The part of `wtalk` after resolution. -/
def wtalk_rest (env : Env) (r : Resolved) : M Unit := do
  wtalk_umount env r.board_str r.mount_file_str
  wtalk_wifi env r.boardtype r.config_json
  wtalk_resolv env r.config_json
  wtalk_join
  emit (.xmpp_connect r.jid_str r.password_str)

/-- The calls of the unmount block. -/
def umount_evs (board_str mount_file_str : CStr) : List Event :=
  if board_str = cstr "server" then []
  else if strlen (cstr "umount " ++ mount_file_str) + 1 ≤ 128 then
    [.system (cstr "umount " ++ mount_file_str)]
  else []

/-- Whether the unmount block ends the process. -/
def umount_stop (env : Env) (board_str mount_file_str : CStr) : Option Exit :=
  if board_str = cstr "server" then none
  else if strlen (cstr "umount " ++ mount_file_str) + 1 ≤ 128 then
    if env.system (cstr "umount " ++ mount_file_str) = -1 then some (.wsyserr "system")
    else none
  else some (.overrun "umount_cmd")

/-- The `(ssid, psk)` the wifi block forks for, if it forks. -/
def wifi_spawn (boardtype : CStr) (config_json : Json) : Option (CStr × CStr) :=
  if boardtype = cstr "edison" then
    match get_str_value config_json (cstr "ssid") with
    | none => none
    | some ssid_str =>
      if ssid_str = [] then none
      else
        match get_str_value config_json (cstr "psk") with
        | none => none
        | some psk_str => some (ssid_str, psk_str)
  else none

/-- The argument vector of the helper. -/
def wifi_args (ssid_str psk_str : CStr) : List CStr :=
  [cstr "configure_edison", cstr "--changeWiFi",
    if psk_str = [] then cstr "OPEN" else cstr "WPA-PSK", ssid_str, psk_str]

/-- The calls of the wifi block. -/
def wifi_evs (env : Env) (boardtype : CStr) (config_json : Json) : List Event :=
  match wifi_spawn boardtype config_json with
  | none => []
  | some (ssid_str, psk_str) =>
    if env.fork_rc = -1 then [.fork env.fork_rc]
    else if env.fork_rc = 0 then
      if env.execvp_ok = true then [.fork env.fork_rc, .execvp (wifi_args ssid_str psk_str)]
      else [.fork env.fork_rc, .execvp (wifi_args ssid_str psk_str),
        .werr "configure_edison failed"]
    else [.fork env.fork_rc]

/-- Whether the wifi block ends the followed process. -/
def wifi_stop (env : Env) (boardtype : CStr) (config_json : Json) : Option Exit :=
  match wifi_spawn boardtype config_json with
  | none => none
  | some _ =>
    if env.fork_rc = -1 then some (.wfatal "fork")
    else if env.fork_rc = 0 then
      if env.execvp_ok = true then some .exec else some .exit_failure
    else none

/-- The value of `wifi_pid` after the wifi block. -/
def wifi_pid_after (env : Env) (boardtype : CStr) (config_json : Json) (pid : Int) : Int :=
  match wifi_spawn boardtype config_json with
  | none => pid
  | some _ => env.fork_rc

/-- The nameserver the resolver block writes, if it runs. -/
def resolv_target (config_json : Json) : Option CStr :=
  match get_str_value config_json (cstr "nameserver") with
  | none => none
  | some nameserver_str => if nameserver_str = [] then none else some nameserver_str

/-- The calls of the resolver block. -/
def resolv_evs (env : Env) (config_json : Json) : List Event :=
  match resolv_target config_json with
  | none => []
  | some nameserver_str =>
    if env.resolv_open = false then [.open_ RESOLV_PATH, .werr "Could not open resolv.conf"]
    else if strlen (cstr "nameserver " ++ nameserver_str) + 1 ≤ 128 then
      [.open_ RESOLV_PATH,
        .write (cstr "nameserver " ++ nameserver_str)
          (strlen (cstr "nameserver " ++ nameserver_str))]
    else [.open_ RESOLV_PATH]

/-- Whether the resolver block ends the process. -/
def resolv_stop (env : Env) (config_json : Json) : Option Exit :=
  match resolv_target config_json with
  | none => none
  | some nameserver_str =>
    if env.resolv_open = false then none
    else if strlen (cstr "nameserver " ++ nameserver_str) + 1 ≤ 128 then
      if env.write (cstr "nameserver " ++ nameserver_str) = -1 then some (.wsyserr "write")
      else none
    else some (.overrun "to_write")

/-- The calls of the join block. -/
def join_evs (pid : Int) : List Event :=
  if pid = -1 then [] else [.waitpid pid]

/-- The locals after a resolution in which every check passes. -/
def resolved_locals (env : Env) (settings config : Json) (mount board jid pass : CStr) :
    Resolved :=
  { boardtype := boardtype_buf env.boardtype_read, settings_json := settings,
    config_json := config, mount_file_str := mount, board_str := board,
    jid_str := some jid, password_str := pass }

/-- The state after a resolution in which every check passes. -/
def resolved_state (env : Env) (config : Json)
    (config_file mount build board jid owner : CStr) : State :=
  { jid_str := some jid, owner_str := some (owner.map tolower),
    mount_file_str := some mount, build_file_str := some build,
    board_str := some board, privacy := privacy_flag config, wifi_pid := -1,
    trace := [.open_ BOARDTYPE_PATH, .file_to_json_t (settings_path env),
      .file_to_json_t config_file] }

/-- The step `st`, taken from `s`, opened the boardtype file and then loaded
the settings document before anything else. -/
def SettingsFirst {α : Type} (env : Env) (s : State) (st : Step α) : Prop :=
  ∃ post, st.state.trace =
    s.trace ++ (.open_ BOARDTYPE_PATH :: .file_to_json_t (settings_path env) :: post)

/-! ## Concrete worlds -/

/-- The path the example settings documents name as `config_file`. -/
def CONFIG_PATH : CStr := cstr "/etc/wyliodrin/wyliodrin.json"

/-- A settings document with the four required fields. -/
def settings_doc (mount board : CStr) : Json :=
  .object [(cstr "config_file", .string CONFIG_PATH), (cstr "mountFile", .string mount),
    (cstr "buildFile", .string (cstr "/wyliodrin/build")), (cstr "board", .string board)]

/-- A config document with the three required fields and `more`. -/
def config_doc (more : List (CStr × Json)) : Json :=
  .object ([(cstr "jid", .string (cstr "board@wyliodrin.org")),
    (cstr "password", .string (cstr "secret")),
    (cstr "owner", .string (cstr "MyOwner"))] ++ more)

/-- A world whose boardtype file holds `content`, with `settings` stored at
`settings_at` and `config` at `CONFIG_PATH`, where `system` returns
`system_rc`, `fork` returns `fork_rc` and every other call succeeds. -/
def world (content settings_at : CStr) (settings config : Json) (system_rc fork_rc : Int) :
    Env where
  boardtype_open := true
  boardtype_read := some content
  file_to_json_t := fun filename =>
    if filename = settings_at then some settings
    else if filename = CONFIG_PATH then some config
    else none
  strdup_ok := fun _ => true
  system := fun _ => system_rc
  fork_rc := fork_rc
  execvp_ok := true
  resolv_open := true
  write := fun buf => buf.length

/-- A raspberrypi board whose settings document has an empty `mountFile`. -/
def world_empty_mount : Env :=
  world (cstr "raspberrypi") (cstr "/etc/wyliodrin/settings_raspberrypi.json")
    (settings_doc [] (cstr "raspberrypi")) (config_doc []) 0 1

/-- A raspberrypi board on which the umount command exits with status 1
(`system` returns 256). -/
def world_umount_fails : Env :=
  world (cstr "raspberrypi") (cstr "/etc/wyliodrin/settings_raspberrypi.json")
    (settings_doc (cstr "/wyliodrin/mount") (cstr "raspberrypi")) (config_doc []) 256 1

/-- An edison board whose boardtype file ends in a newline, with the settings
document stored under the name without the newline. -/
def world_newline_trimmed_name : Env :=
  world (cstr "edison\n") (cstr "/etc/wyliodrin/settings_edison.json")
    (settings_doc (cstr "/wyliodrin/mount") (cstr "edison"))
    (config_doc [(cstr "ssid", .string (cstr "home")), (cstr "psk", .string (cstr "secret"))])
    0 1234

/-- The same board with the settings document stored under the name that
holds the newline. -/
def world_newline_raw_name : Env :=
  world (cstr "edison\n") (cstr "/etc/wyliodrin/settings_edison\n.json")
    (settings_doc (cstr "/wyliodrin/mount") (cstr "edison"))
    (config_doc [(cstr "ssid", .string (cstr "home")), (cstr "psk", .string (cstr "secret"))])
    0 1234

/-- The settings document of the edison examples. -/
def edison_settings : Json := settings_doc (cstr "/wyliodrin/mount") (cstr "edison")

/-- A config document with wifi and nameserver settings. -/
def full_config (psk : CStr) : Json :=
  config_doc [(cstr "ssid", .string (cstr "home")), (cstr "psk", .string psk),
    (cstr "nameserver", .string (cstr "8.8.8.8"))]

/-- An edison board with wifi and nameserver settings; `fork_rc` tells which
side of the fork is followed. -/
def world_edison (psk : CStr) (fork_rc : Int) : Env :=
  world (cstr "edison") (cstr "/etc/wyliodrin/settings_edison.json")
    edison_settings (full_config psk) 0 fork_rc

/-- A raspberrypi board on which `system` returns `-1`. -/
def world_system_fails : Env :=
  world (cstr "raspberrypi") (cstr "/etc/wyliodrin/settings_raspberrypi.json")
    (settings_doc (cstr "/wyliodrin/mount") (cstr "raspberrypi")) (config_doc []) (-1) 1

/-- A boardtype file of 64 bytes, none of them NUL. -/
def long_boardtype : CStr := List.replicate 64 'e'

/-- A board whose boardtype file fills `boardtype[64]`, with the settings
document stored under the name made of those 64 bytes. -/
def world_long_boardtype : Env :=
  world long_boardtype (settings_path_of long_boardtype)
    (settings_doc (cstr "/wyliodrin/mount") (cstr "edison")) (config_doc []) 0 1

/-- A board whose boardtype file holds `edison`, a NUL and one more byte,
with the settings document stored under the name made of the whole content. -/
def world_nul_boardtype : Env :=
  world (cstr "edison" ++ [Char.ofNat 0, 'x'])
    (settings_path_of (cstr "edison" ++ [Char.ofNat 0, 'x']))
    (settings_doc (cstr "/wyliodrin/mount") (cstr "edison")) (config_doc []) 0 1

/-! ## The lowercase loop -/

theorem lower_loop_eq_aux (n : Nat) : ∀ (p : CStr) (i : Nat), strlen p - i = n →
    lower_loop p i = p.take i ++ (p.drop i).map tolower := by
  induction n with
  | zero =>
    intro p i h
    unfold lower_loop
    have hi : ¬ i < strlen p := by omega
    rw [dif_neg hi]
    simp only [strlen] at hi
    rw [List.drop_eq_nil_of_le (by omega), List.take_of_length_le (by omega)]
    simp
  | succ n ih =>
    intro p i h
    unfold lower_loop
    have hi : i < strlen p := by omega
    rw [dif_pos hi]
    have hlen : strlen (p.set i (tolower (p.get ⟨i, hi⟩))) = strlen p := by
      simp [strlen]
    rw [ih _ _ (by rw [hlen]; omega)]
    simp only [strlen] at hi
    have hlt : List.length (List.take i p) = i := by
      rw [List.length_take]; omega
    rw [List.set_eq_take_append_cons_drop, if_pos hi, List.drop_eq_getElem_cons hi]
    rw [List.take_append_eq_append_take, List.drop_append_eq_append_drop, hlt]
    rw [List.take_of_length_le (Nat.le_succ_of_le (Nat.le_of_eq hlt)),
      List.drop_eq_nil_of_le (Nat.le_succ_of_le (Nat.le_of_eq hlt))]
    simp only [List.map_drop, List.nil_append, List.append_assoc, List.singleton_append,
      Nat.sub_self, Nat.add_sub_cancel_left, List.take_succ_cons, List.take_zero,
      List.drop_succ_cons, List.drop_zero, List.get_eq_getElem, List.append_cancel_left_eq]
    rw [List.map_cons, List.map_drop]

theorem lower_loop_eq (p : CStr) (i : Nat) :
    lower_loop p i = p.take i ++ (p.drop i).map tolower :=
  lower_loop_eq_aux _ p i rfl

theorem lower_loop_zero (p : CStr) : lower_loop p 0 = p.map tolower := by
  rw [lower_loop_eq]; simp

/-! ## Stepping through the monad -/

theorem bind_apply {α β : Type} (m : M α) (f : α → M β) (s : State) :
    (m >>= f) s = match m s with
      | .ok a s1 => f a s1
      | .halt e s1 => .halt e s1 := rfl

theorem pure_apply {α : Type} (a : α) (s : State) : (pure a : M α) s = .ok a s := rfl

theorem wtalk_privacy_eq (config : Json) (s : State) :
    wtalk_privacy config s = .ok () { s with privacy := s.privacy || privacy_flag config } := by
  unfold wtalk_privacy privacy_flag
  cases h : json_object_get config (cstr "privacy") with
  | none => simp [pure_apply]
  | some v =>
    cases v with
    | bool b => cases b <;> simp [json_is_boolean, json_is_true, modify, pure_apply]
    | _ => simp [json_is_boolean, json_is_true, modify, pure_apply]

theorem boardtype_buf_length (rd : Option CStr) : strlen (boardtype_buf rd) ≤ 64 := by
  unfold boardtype_buf strlen
  have h1 := (List.takeWhile_sublist (l := (rd.getD []).take 64)
    (fun c => c != Char.ofNat 0)).length_le
  have h2 := List.length_take_le 64 (rd.getD [])
  omega

/-- The settings path always fits `char settings_path[128]`. -/
theorem settings_path_fits (rd : Option CStr) :
    strlen (settings_path_of (boardtype_buf rd)) + 1 ≤ 128 := by
  have h := boardtype_buf_length rd
  have h24 : strlen SETTINGS_PATH = 24 := rfl
  have h5 : strlen (cstr ".json") = 5 := rfl
  simp only [strlen, settings_path_of, List.length_append] at h h24 h5 ⊢
  omega

/-- The result of resolution when every check passes. -/
theorem wtalk_resolve_ok (env : Env) (settings config : Json)
    (config_file mount build board jid pass owner : CStr) (s : State)
    (hterm : boardtype_terminated env.boardtype_read = true)
    (hl : Loads env settings config_file config)
    (hcf : Required settings "config_file" config_file)
    (hm : StrField settings "mountFile" mount)
    (hb : StrField settings "buildFile" build)
    (hbd : StrField settings "board" board)
    (hj : StrField config "jid" jid)
    (hp : StrField config "password" pass)
    (ho : StrField config "owner" owner)
    (hmem : ∀ k, env.strdup_ok k = true) :
    wtalk_resolve env s =
      .ok { boardtype := boardtype_buf env.boardtype_read, settings_json := settings,
            config_json := config, mount_file_str := mount, board_str := board,
            jid_str := some jid, password_str := pass }
          { s with
            jid_str := some jid, owner_str := some (owner.map tolower),
            mount_file_str := some mount, build_file_str := some build,
            board_str := some board, privacy := s.privacy || privacy_flag config,
            trace := s.trace ++ [.open_ BOARDTYPE_PATH, .file_to_json_t (settings_path env),
              .file_to_json_t config_file] } := by
  obtain ⟨h1, h2, h3, h4⟩ := hl
  obtain ⟨h5, h6⟩ := hcf
  simp only [StrField] at h5 hm hb hbd hj hp ho
  simp only [settings_path] at h3
  have h7 : strlen config_file ≠ 0 := by simpa [strlen] using h6
  have h8 := settings_path_fits env.boardtype_read
  simp [wtalk_resolve, bind_apply, pure_apply, emit, wsyserr, wfatal, wfatal_null, modify,
    overrun, sprintf, strdup, hmem, hterm, h1, h2, h3, h4, h5, hm, hb, hbd, hj, hp, ho, h7, h8,
    lower_loop_zero, settings_path, wtalk_privacy_eq]

theorem emit_bind {β : Type} (e : Event) (f : Unit → M β) (s : State) :
    (emit e >>= f) s = f () { s with trace := s.trace ++ [e] } := rfl

theorem modify_bind {β : Type} (g : State → State) (f : Unit → M β) (s : State) :
    (modify g >>= f) s = f () (g s) := rfl

theorem wsyserr_bind {β : Type} (c : Bool) (msg : String) (f : Unit → M β) (s : State) :
    (wsyserr c msg >>= f) s = if c then .halt (.wsyserr msg) s else f () s := by
  cases c <;> rfl

theorem wfatal_bind {β : Type} (c : Bool) (msg : String) (f : Unit → M β) (s : State) :
    (wfatal c msg >>= f) s = if c then .halt (.wfatal msg) s else f () s := by
  cases c <;> rfl

theorem wfatal_null_bind {α β : Type} (p : Option α) (msg : String) (f : α → M β)
    (s : State) :
    (wfatal_null p msg >>= f) s =
      match p with
      | none => .halt (.wfatal msg) s
      | some a => f a s := by
  cases p <;> rfl

theorem overrun_bind {β : Type} (c : Bool) (array : String) (f : Unit → M β) (s : State) :
    (overrun c array >>= f) s = if c then .halt (.overrun array) s else f () s := by
  cases c <;> rfl

theorem sprintf_bind {β : Type} (cap : Nat) (array : String) (formatted : CStr)
    (f : CStr → M β) (s : State) :
    (sprintf cap array formatted >>= f) s =
      if strlen formatted + 1 ≤ cap then f formatted s else .halt (.overrun array) s := by
  by_cases h : strlen formatted + 1 ≤ cap
  · simp [bind_apply, sprintf, h]
  · simp [bind_apply, sprintf, h]

theorem wtalk_privacy_bind {β : Type} (config : Json) (f : Unit → M β) (s : State) :
    (wtalk_privacy config >>= f) s =
      f () { s with privacy := s.privacy || privacy_flag config } := by
  rw [bind_apply, wtalk_privacy_eq]

theorem wtalk_resolve_frame (env : Env) (s : State) :
    SetupOnly s (wtalk_resolve env s) := by
  simp only [wtalk_resolve, emit_bind, modify_bind, wsyserr_bind, wfatal_bind,
    wfatal_null_bind, wtalk_privacy_bind, overrun_bind, sprintf_bind, pure_apply]
  repeat' split
  all_goals simp [SetupOnly, Step.state, Event.is_setup]

theorem wtalk_resolve_sound (env : Env) (s : State) : Sound env (wtalk_resolve env s) := by
  simp only [wtalk_resolve, emit_bind, modify_bind, wsyserr_bind, wfatal_bind,
    wfatal_null_bind, wtalk_privacy_bind, overrun_bind, sprintf_bind, pure_apply]
  repeat' split
  all_goals first
    | trivial
    | (simp only [Sound]; constructor <;> simp_all [settings_path, strdup, strlen])

theorem wtalk_resolve_halts_fatally (env : Env) (s : State)
    (hterm : boardtype_terminated env.boardtype_read = true) :
    HaltsFatally (wtalk_resolve env s) := by
  have hfit := settings_path_fits env.boardtype_read
  simp only [wtalk_resolve, emit_bind, modify_bind, wsyserr_bind, wfatal_bind,
    wfatal_null_bind, wtalk_privacy_bind, overrun_bind, sprintf_bind, pure_apply]
  repeat' split
  all_goals simp_all [HaltsFatally, Exit.is_fatal]

/-! ## The side-effect blocks, in continuation form -/

theorem wtalk_umount_bind {β : Type} (env : Env) (board_str mount_file_str : CStr)
    (f : Unit → M β) (s : State) :
    (wtalk_umount env board_str mount_file_str >>= f) s =
      if board_str = cstr "server" then f () s
      else if strlen (cstr "umount " ++ mount_file_str) + 1 ≤ 128 then
        if env.system (cstr "umount " ++ mount_file_str) = -1 then
          .halt (.wsyserr "system")
            { s with trace := s.trace ++ [.system (cstr "umount " ++ mount_file_str)] }
        else f () { s with trace := s.trace ++ [.system (cstr "umount " ++ mount_file_str)] }
      else .halt (.overrun "umount_cmd") s := by
  by_cases h : board_str = cstr "server"
  · simp [wtalk_umount, bind_apply, pure_apply, h]
  · by_cases hfit : strlen (cstr "umount " ++ mount_file_str) + 1 ≤ 128
    · by_cases h2 : env.system (cstr "umount " ++ mount_file_str) = -1
      · simp [wtalk_umount, bind_apply, emit, wsyserr, sprintf, h, h2, hfit]
      · simp [wtalk_umount, bind_apply, emit, wsyserr, sprintf, h, h2, hfit]
    · simp [wtalk_umount, bind_apply, sprintf, h, hfit]

theorem wtalk_wifi_bind {β : Type} (env : Env) (boardtype : CStr) (config_json : Json)
    (f : Unit → M β) (s : State) :
    (wtalk_wifi env boardtype config_json >>= f) s =
      if boardtype = cstr "edison" then
        match get_str_value config_json (cstr "ssid") with
        | none => f () s
        | some ssid_str =>
          if ssid_str = [] then f () s
          else
            match get_str_value config_json (cstr "psk") with
            | none => f () s
            | some psk_str =>
              if env.fork_rc = -1 then
                .halt (.wfatal "fork")
                  { s with wifi_pid := env.fork_rc, trace := s.trace ++ [.fork env.fork_rc] }
              else if env.fork_rc = 0 then
                if env.execvp_ok = true then
                  .halt .exec
                    { s with
                      wifi_pid := env.fork_rc,
                      trace := s.trace ++ [.fork env.fork_rc,
                        .execvp [cstr "configure_edison", cstr "--changeWiFi",
                          if psk_str = [] then cstr "OPEN" else cstr "WPA-PSK",
                          ssid_str, psk_str]] }
                else
                  .halt .exit_failure
                    { s with
                      wifi_pid := env.fork_rc,
                      trace := s.trace ++ [.fork env.fork_rc,
                        .execvp [cstr "configure_edison", cstr "--changeWiFi",
                          if psk_str = [] then cstr "OPEN" else cstr "WPA-PSK",
                          ssid_str, psk_str],
                        .werr "configure_edison failed"] }
              else
                f () { s with wifi_pid := env.fork_rc, trace := s.trace ++ [.fork env.fork_rc] }
      else f () s := by
  by_cases h : boardtype = cstr "edison"
  · cases hs : get_str_value config_json (cstr "ssid") with
    | none => simp [wtalk_wifi, bind_apply, pure_apply, h, hs]
    | some ssid_str =>
      by_cases h0 : ssid_str = []
      · simp [wtalk_wifi, bind_apply, pure_apply, h, hs, h0, strlen]
      · cases hp : get_str_value config_json (cstr "psk") with
        | none => simp [wtalk_wifi, bind_apply, pure_apply, h, hs, h0, hp, strlen]
        | some psk_str =>
          by_cases h1 : env.fork_rc = -1
          · simp [wtalk_wifi, bind_apply, pure_apply, emit, modify, wfatal, h, hs, h0, hp, h1,
              strlen]
          · by_cases h2 : env.fork_rc = 0
            · cases h3 : env.execvp_ok <;>
                simp [wtalk_wifi, bind_apply, pure_apply, emit, modify, wfatal, werr, halt, h, hs,
                  h0, hp, h2, h3, strlen]
            · simp [wtalk_wifi, bind_apply, pure_apply, emit, modify, wfatal, h, hs, h0, hp, h1,
                h2, strlen]
  · simp [wtalk_wifi, bind_apply, pure_apply, h]

theorem wtalk_resolv_bind {β : Type} (env : Env) (config_json : Json)
    (f : Unit → M β) (s : State) :
    (wtalk_resolv env config_json >>= f) s =
      match get_str_value config_json (cstr "nameserver") with
      | none => f () s
      | some nameserver_str =>
        if nameserver_str = [] then f () s
        else if env.resolv_open = false then
          f () { s with trace := s.trace ++
            [.open_ RESOLV_PATH, .werr "Could not open resolv.conf"] }
        else if strlen (cstr "nameserver " ++ nameserver_str) + 1 ≤ 128 then
          if env.write (cstr "nameserver " ++ nameserver_str) = -1 then
            .halt (.wsyserr "write")
              { s with trace := s.trace ++ [.open_ RESOLV_PATH,
                  .write (cstr "nameserver " ++ nameserver_str)
                    (strlen (cstr "nameserver " ++ nameserver_str))] }
          else
            f () { s with trace := s.trace ++ [.open_ RESOLV_PATH,
                  .write (cstr "nameserver " ++ nameserver_str)
                    (strlen (cstr "nameserver " ++ nameserver_str))] }
        else .halt (.overrun "to_write") { s with trace := s.trace ++ [.open_ RESOLV_PATH] } := by
  cases hn : get_str_value config_json (cstr "nameserver") with
  | none => simp [wtalk_resolv, bind_apply, pure_apply, hn]
  | some nameserver_str =>
    by_cases h0 : nameserver_str = []
    · simp [wtalk_resolv, bind_apply, pure_apply, hn, h0, strlen]
    · cases h1 : env.resolv_open
      · simp [wtalk_resolv, bind_apply, pure_apply, emit, werr, hn, h0, h1, strlen]
      · have h0s : strlen nameserver_str ≠ 0 := by simpa [strlen] using h0
        by_cases hfit : strlen (cstr "nameserver " ++ nameserver_str) + 1 ≤ 128
        · by_cases h2 : env.write (cstr "nameserver " ++ nameserver_str) = -1
          · simp [wtalk_resolv, bind_apply, pure_apply, emit, wsyserr, sprintf, hn, h0, h0s, h1,
              h2, hfit]
          · simp [wtalk_resolv, bind_apply, pure_apply, emit, wsyserr, sprintf, hn, h0, h0s, h1,
              h2, hfit]
        · simp [wtalk_resolv, bind_apply, pure_apply, emit, sprintf, hn, h0, h0s, h1, hfit]

theorem wtalk_join_bind {β : Type} (f : Unit → M β) (s : State) :
    (wtalk_join >>= f) s =
      if s.wifi_pid = -1 then f () s
      else f () { s with trace := s.trace ++ [.waitpid s.wifi_pid] } := by
  by_cases h : s.wifi_pid = -1
  · simp [wtalk_join, bind_apply, h]
  · simp [wtalk_join, bind_apply, emit, h]

theorem wtalk_eq (env : Env) : wtalk env = wtalk_resolve env >>= wtalk_rest env := rfl

theorem wtalk_umount_out {β : Type} (env : Env) (board_str mount_file_str : CStr)
    (f : Unit → M β) (s : State) :
    (wtalk_umount env board_str mount_file_str >>= f) s =
      match umount_stop env board_str mount_file_str with
      | some e => .halt e { s with trace := s.trace ++ umount_evs board_str mount_file_str }
      | none => f () { s with trace := s.trace ++ umount_evs board_str mount_file_str } := by
  rw [wtalk_umount_bind]
  unfold umount_stop umount_evs
  by_cases h : board_str = cstr "server"
  · simp [h]
  · by_cases hfit : strlen (cstr "umount " ++ mount_file_str) + 1 ≤ 128
    · by_cases h2 : env.system (cstr "umount " ++ mount_file_str) = -1 <;> simp [h, h2, hfit]
    · simp [h, hfit]

theorem wtalk_wifi_out {β : Type} (env : Env) (boardtype : CStr) (config_json : Json)
    (f : Unit → M β) (s : State) :
    (wtalk_wifi env boardtype config_json >>= f) s =
      match wifi_stop env boardtype config_json with
      | some e => .halt e { s with
          wifi_pid := wifi_pid_after env boardtype config_json s.wifi_pid,
          trace := s.trace ++ wifi_evs env boardtype config_json }
      | none => f () { s with
          wifi_pid := wifi_pid_after env boardtype config_json s.wifi_pid,
          trace := s.trace ++ wifi_evs env boardtype config_json } := by
  rw [wtalk_wifi_bind]
  unfold wifi_stop wifi_evs wifi_pid_after wifi_spawn wifi_args
  by_cases h : boardtype = cstr "edison"
  · cases hs : get_str_value config_json (cstr "ssid") with
    | none => simp [h, hs]
    | some ssid_str =>
      by_cases h0 : ssid_str = []
      · simp [h, hs, h0]
      · cases hp : get_str_value config_json (cstr "psk") with
        | none => simp [h, hs, h0, hp]
        | some psk_str =>
          by_cases h1 : env.fork_rc = -1
          · simp [h, hs, h0, hp, h1]
          · by_cases h2 : env.fork_rc = 0
            · cases h3 : env.execvp_ok <;> simp [h, hs, h0, hp, h2, h3]
            · simp [h, hs, h0, hp, h1, h2]
  · simp [h]

theorem wtalk_resolv_out {β : Type} (env : Env) (config_json : Json)
    (f : Unit → M β) (s : State) :
    (wtalk_resolv env config_json >>= f) s =
      match resolv_stop env config_json with
      | some e => .halt e { s with trace := s.trace ++ resolv_evs env config_json }
      | none => f () { s with trace := s.trace ++ resolv_evs env config_json } := by
  rw [wtalk_resolv_bind]
  unfold resolv_stop resolv_evs resolv_target
  cases hn : get_str_value config_json (cstr "nameserver") with
  | none => simp [hn]
  | some nameserver_str =>
    by_cases h0 : nameserver_str = []
    · simp [h0]
    · cases h1 : env.resolv_open
      · simp [h0, h1]
      · by_cases hfit : strlen (cstr "nameserver " ++ nameserver_str) + 1 ≤ 128
        · by_cases h2 : env.write (cstr "nameserver " ++ nameserver_str) = -1 <;>
            simp [h0, h1, h2, hfit]
        · simp [h0, h1, hfit]

theorem wtalk_join_out {β : Type} (f : Unit → M β) (s : State) :
    (wtalk_join >>= f) s = f () { s with trace := s.trace ++ join_evs s.wifi_pid } := by
  rw [wtalk_join_bind]
  unfold join_evs
  by_cases h : s.wifi_pid = -1
  · rw [if_pos h, if_pos h, List.append_nil]
  · rw [if_neg h, if_neg h]

/-- The outcome of the part of `wtalk` after resolution. -/
theorem wtalk_rest_result (env : Env) (r : Resolved) (s : State) :
    (wtalk_rest env r s).result =
      match umount_stop env r.board_str r.mount_file_str with
      | some e =>
        { exit := e,
          state := { s with trace := s.trace ++ umount_evs r.board_str r.mount_file_str } }
      | none =>
        match wifi_stop env r.boardtype r.config_json with
        | some e =>
          { exit := e,
            state := { s with
              wifi_pid := wifi_pid_after env r.boardtype r.config_json s.wifi_pid,
              trace := s.trace ++ umount_evs r.board_str r.mount_file_str ++
                wifi_evs env r.boardtype r.config_json } }
        | none =>
          match resolv_stop env r.config_json with
          | some e =>
            { exit := e,
              state := { s with
                wifi_pid := wifi_pid_after env r.boardtype r.config_json s.wifi_pid,
                trace := s.trace ++ umount_evs r.board_str r.mount_file_str ++
                  wifi_evs env r.boardtype r.config_json ++ resolv_evs env r.config_json } }
          | none =>
            { exit := .returned,
              state := { s with
                wifi_pid := wifi_pid_after env r.boardtype r.config_json s.wifi_pid,
                trace := s.trace ++ umount_evs r.board_str r.mount_file_str ++
                  wifi_evs env r.boardtype r.config_json ++ resolv_evs env r.config_json ++
                  join_evs (wifi_pid_after env r.boardtype r.config_json s.wifi_pid) ++
                  [.xmpp_connect r.jid_str r.password_str] } } := by
  simp only [wtalk_rest]
  rw [wtalk_umount_out]
  cases umount_stop env r.board_str r.mount_file_str with
  | some e => rfl
  | none =>
    simp only []
    rw [wtalk_wifi_out]
    cases wifi_stop env r.boardtype r.config_json with
    | some e => rfl
    | none =>
      simp only []
      rw [wtalk_resolv_out]
      cases resolv_stop env r.config_json with
      | some e => rfl
      | none =>
        simp only []
        rw [wtalk_join_out]
        rfl

/-! ## Reading the calls of each block -/

@[simp] theorem xmpp_calls_nil : xmpp_calls [] = [] := rfl

@[simp] theorem xmpp_calls_cons (e : Event) (t : List Event) :
    xmpp_calls (e :: t) =
      (match e with
        | .xmpp_connect jid pass => [(jid, pass)]
        | _ => []) ++ xmpp_calls t := by
  cases e <;> rfl

@[simp] theorem system_calls_nil : system_calls [] = [] := rfl

@[simp] theorem system_calls_cons (e : Event) (t : List Event) :
    system_calls (e :: t) =
      (match e with
        | .system command => [command]
        | _ => []) ++ system_calls t := by
  cases e <;> rfl

@[simp] theorem fork_calls_nil : fork_calls [] = [] := rfl

@[simp] theorem fork_calls_cons (e : Event) (t : List Event) :
    fork_calls (e :: t) =
      (match e with
        | .fork rc => [rc]
        | _ => []) ++ fork_calls t := by
  cases e <;> rfl

@[simp] theorem execvp_calls_nil : execvp_calls [] = [] := rfl

@[simp] theorem execvp_calls_cons (e : Event) (t : List Event) :
    execvp_calls (e :: t) =
      (match e with
        | .execvp args => [args]
        | _ => []) ++ execvp_calls t := by
  cases e <;> rfl

@[simp] theorem waitpid_calls_nil : waitpid_calls [] = [] := rfl

@[simp] theorem waitpid_calls_cons (e : Event) (t : List Event) :
    waitpid_calls (e :: t) =
      (match e with
        | .waitpid pid => [pid]
        | _ => []) ++ waitpid_calls t := by
  cases e <;> rfl

@[simp] theorem open_calls_nil : open_calls [] = [] := rfl

@[simp] theorem open_calls_cons (e : Event) (t : List Event) :
    open_calls (e :: t) =
      (match e with
        | .open_ pathname => [pathname]
        | _ => []) ++ open_calls t := by
  cases e <;> rfl

@[simp] theorem write_calls_nil : write_calls [] = [] := rfl

@[simp] theorem write_calls_cons (e : Event) (t : List Event) :
    write_calls (e :: t) =
      (match e with
        | .write buf count => [(buf, count)]
        | _ => []) ++ write_calls t := by
  cases e <;> rfl

@[simp] theorem load_calls_nil : load_calls [] = [] := rfl

@[simp] theorem load_calls_cons (e : Event) (t : List Event) :
    load_calls (e :: t) =
      (match e with
        | .file_to_json_t filename => [filename]
        | _ => []) ++ load_calls t := by
  cases e <;> rfl

@[simp] theorem xmpp_calls_append (a b : List Event) :
    xmpp_calls (a ++ b) = xmpp_calls a ++ xmpp_calls b := by
  simp [xmpp_calls, List.filterMap_append]

@[simp] theorem system_calls_append (a b : List Event) :
    system_calls (a ++ b) = system_calls a ++ system_calls b := by
  simp [system_calls, List.filterMap_append]

@[simp] theorem fork_calls_append (a b : List Event) :
    fork_calls (a ++ b) = fork_calls a ++ fork_calls b := by
  simp [fork_calls, List.filterMap_append]

@[simp] theorem execvp_calls_append (a b : List Event) :
    execvp_calls (a ++ b) = execvp_calls a ++ execvp_calls b := by
  simp [execvp_calls, List.filterMap_append]

@[simp] theorem waitpid_calls_append (a b : List Event) :
    waitpid_calls (a ++ b) = waitpid_calls a ++ waitpid_calls b := by
  simp [waitpid_calls, List.filterMap_append]

@[simp] theorem open_calls_append (a b : List Event) :
    open_calls (a ++ b) = open_calls a ++ open_calls b := by
  simp [open_calls, List.filterMap_append]

@[simp] theorem write_calls_append (a b : List Event) :
    write_calls (a ++ b) = write_calls a ++ write_calls b := by
  simp [write_calls, List.filterMap_append]

@[simp] theorem load_calls_append (a b : List Event) :
    load_calls (a ++ b) = load_calls a ++ load_calls b := by
  simp [load_calls, List.filterMap_append]

@[simp] theorem xmpp_calls_umount_evs (board_str mount_file_str : CStr) :
    xmpp_calls (umount_evs board_str mount_file_str) = [] := by
  unfold umount_evs
  repeat' split
  all_goals rfl

@[simp] theorem fork_calls_umount_evs (board_str mount_file_str : CStr) :
    fork_calls (umount_evs board_str mount_file_str) = [] := by
  unfold umount_evs
  repeat' split
  all_goals rfl

@[simp] theorem execvp_calls_umount_evs (board_str mount_file_str : CStr) :
    execvp_calls (umount_evs board_str mount_file_str) = [] := by
  unfold umount_evs
  repeat' split
  all_goals rfl

@[simp] theorem waitpid_calls_umount_evs (board_str mount_file_str : CStr) :
    waitpid_calls (umount_evs board_str mount_file_str) = [] := by
  unfold umount_evs
  repeat' split
  all_goals rfl

@[simp] theorem open_calls_umount_evs (board_str mount_file_str : CStr) :
    open_calls (umount_evs board_str mount_file_str) = [] := by
  unfold umount_evs
  repeat' split
  all_goals rfl

@[simp] theorem write_calls_umount_evs (board_str mount_file_str : CStr) :
    write_calls (umount_evs board_str mount_file_str) = [] := by
  unfold umount_evs
  repeat' split
  all_goals rfl

@[simp] theorem load_calls_umount_evs (board_str mount_file_str : CStr) :
    load_calls (umount_evs board_str mount_file_str) = [] := by
  unfold umount_evs
  repeat' split
  all_goals rfl

@[simp] theorem xmpp_calls_wifi_evs (env : Env) (boardtype : CStr) (config_json : Json) :
    xmpp_calls (wifi_evs env boardtype config_json) = [] := by
  unfold wifi_evs
  repeat' split
  all_goals rfl

@[simp] theorem system_calls_wifi_evs (env : Env) (boardtype : CStr) (config_json : Json) :
    system_calls (wifi_evs env boardtype config_json) = [] := by
  unfold wifi_evs
  repeat' split
  all_goals rfl

@[simp] theorem waitpid_calls_wifi_evs (env : Env) (boardtype : CStr) (config_json : Json) :
    waitpid_calls (wifi_evs env boardtype config_json) = [] := by
  unfold wifi_evs
  repeat' split
  all_goals rfl

@[simp] theorem open_calls_wifi_evs (env : Env) (boardtype : CStr) (config_json : Json) :
    open_calls (wifi_evs env boardtype config_json) = [] := by
  unfold wifi_evs
  repeat' split
  all_goals rfl

@[simp] theorem write_calls_wifi_evs (env : Env) (boardtype : CStr) (config_json : Json) :
    write_calls (wifi_evs env boardtype config_json) = [] := by
  unfold wifi_evs
  repeat' split
  all_goals rfl

@[simp] theorem load_calls_wifi_evs (env : Env) (boardtype : CStr) (config_json : Json) :
    load_calls (wifi_evs env boardtype config_json) = [] := by
  unfold wifi_evs
  repeat' split
  all_goals rfl

@[simp] theorem xmpp_calls_resolv_evs (env : Env) (config_json : Json) :
    xmpp_calls (resolv_evs env config_json) = [] := by
  unfold resolv_evs
  repeat' split
  all_goals rfl

@[simp] theorem system_calls_resolv_evs (env : Env) (config_json : Json) :
    system_calls (resolv_evs env config_json) = [] := by
  unfold resolv_evs
  repeat' split
  all_goals rfl

@[simp] theorem fork_calls_resolv_evs (env : Env) (config_json : Json) :
    fork_calls (resolv_evs env config_json) = [] := by
  unfold resolv_evs
  repeat' split
  all_goals rfl

@[simp] theorem execvp_calls_resolv_evs (env : Env) (config_json : Json) :
    execvp_calls (resolv_evs env config_json) = [] := by
  unfold resolv_evs
  repeat' split
  all_goals rfl

@[simp] theorem waitpid_calls_resolv_evs (env : Env) (config_json : Json) :
    waitpid_calls (resolv_evs env config_json) = [] := by
  unfold resolv_evs
  repeat' split
  all_goals rfl

@[simp] theorem load_calls_resolv_evs (env : Env) (config_json : Json) :
    load_calls (resolv_evs env config_json) = [] := by
  unfold resolv_evs
  repeat' split
  all_goals rfl

@[simp] theorem xmpp_calls_join_evs (pid : Int) :
    xmpp_calls (join_evs pid) = [] := by
  unfold join_evs
  repeat' split
  all_goals rfl

@[simp] theorem system_calls_join_evs (pid : Int) :
    system_calls (join_evs pid) = [] := by
  unfold join_evs
  repeat' split
  all_goals rfl

@[simp] theorem fork_calls_join_evs (pid : Int) :
    fork_calls (join_evs pid) = [] := by
  unfold join_evs
  repeat' split
  all_goals rfl

@[simp] theorem execvp_calls_join_evs (pid : Int) :
    execvp_calls (join_evs pid) = [] := by
  unfold join_evs
  repeat' split
  all_goals rfl

@[simp] theorem open_calls_join_evs (pid : Int) :
    open_calls (join_evs pid) = [] := by
  unfold join_evs
  repeat' split
  all_goals rfl

@[simp] theorem write_calls_join_evs (pid : Int) :
    write_calls (join_evs pid) = [] := by
  unfold join_evs
  repeat' split
  all_goals rfl

@[simp] theorem load_calls_join_evs (pid : Int) :
    load_calls (join_evs pid) = [] := by
  unfold join_evs
  repeat' split
  all_goals rfl

theorem system_calls_umount_evs (board_str mount_file_str : CStr) :
    system_calls (umount_evs board_str mount_file_str) =
      if board_str = cstr "server" then []
      else if strlen (cstr "umount " ++ mount_file_str) + 1 ≤ 128 then
        [cstr "umount " ++ mount_file_str]
      else [] := by
  unfold umount_evs
  repeat' split
  all_goals rfl

theorem fork_calls_wifi_evs (env : Env) (boardtype : CStr) (config_json : Json) :
    fork_calls (wifi_evs env boardtype config_json) =
      match wifi_spawn boardtype config_json with
      | none => []
      | some _ => [env.fork_rc] := by
  unfold wifi_evs
  cases wifi_spawn boardtype config_json with
  | none => rfl
  | some p =>
    simp only []
    repeat' split
    all_goals rfl

theorem execvp_calls_wifi_evs (env : Env) (boardtype : CStr) (config_json : Json) :
    execvp_calls (wifi_evs env boardtype config_json) =
      match wifi_spawn boardtype config_json with
      | none => []
      | some (ssid_str, psk_str) =>
        if env.fork_rc = 0 then [wifi_args ssid_str psk_str] else [] := by
  unfold wifi_evs
  cases wifi_spawn boardtype config_json with
  | none => rfl
  | some p =>
    obtain ⟨ssid_str, psk_str⟩ := p
    by_cases h1 : env.fork_rc = -1
    · have h0 : env.fork_rc ≠ 0 := by omega
      simp [h1, execvp_calls]
    · by_cases h0 : env.fork_rc = 0
      · cases h3 : env.execvp_ok <;> simp [h0, h3, execvp_calls]
      · simp [h1, h0, execvp_calls]

theorem run_of_ok (env : Env) (r : Resolved) (s1 : State)
    (h : wtalk_resolve env {} = .ok r s1) : run env = (wtalk_rest env r s1).result := by
  rw [run, wtalk_eq, bind_apply, h]

theorem run_of_halt (env : Env) (e : Exit) (s1 : State)
    (h : wtalk_resolve env {} = .halt e s1) : run env = { exit := e, state := s1 } := by
  rw [run, wtalk_eq, bind_apply, h]
  rfl

theorem run_resolved (env : Env) (settings config : Json)
    (config_file mount build board jid pass owner : CStr)
    (hterm : boardtype_terminated env.boardtype_read = true)
    (hl : Loads env settings config_file config)
    (hcf : Required settings "config_file" config_file)
    (hm : StrField settings "mountFile" mount)
    (hb : StrField settings "buildFile" build)
    (hbd : StrField settings "board" board)
    (hj : StrField config "jid" jid)
    (hp : StrField config "password" pass)
    (ho : StrField config "owner" owner)
    (hmem : ∀ k, env.strdup_ok k = true) :
    run env = (wtalk_rest env (resolved_locals env settings config mount board jid pass)
      (resolved_state env config config_file mount build board jid owner)).result := by
  have hr := wtalk_resolve_ok env settings config config_file mount build board jid pass owner
    {} hterm hl hcf hm hb hbd hj hp ho hmem
  rw [run_of_ok env _ _ hr]
  simp [resolved_locals, resolved_state]

/-- The blocks after resolution leave the globals alone. -/
theorem wtalk_rest_globals (env : Env) (r : Resolved) (s : State) :
    (wtalk_rest env r s).result.state.owner_str = s.owner_str ∧
    (wtalk_rest env r s).result.state.jid_str = s.jid_str ∧
    (wtalk_rest env r s).result.state.privacy = s.privacy := by
  rw [wtalk_rest_result]
  repeat' split
  all_goals exact ⟨rfl, rfl, rfl⟩

/-! ## The claims -/

theorem umount_cmd_fits (mount : CStr) (h : strlen mount ≤ 120) :
    strlen (cstr "umount " ++ mount) + 1 ≤ 128 := by
  have h7 : strlen (cstr "umount ") = 7 := rfl
  simp only [strlen, List.length_append] at h h7 ⊢
  omega

theorem to_write_fits (v : CStr) (h : strlen v ≤ 116) :
    strlen (cstr "nameserver " ++ v) + 1 ≤ 128 := by
  have h11 : strlen (cstr "nameserver ") = 11 := rfl
  simp only [strlen, List.length_append] at h h11 ⊢
  omega

theorem umount_stop_none (env : Env) (board mount : CStr)
    (h : board = cstr "server" ∨
      (strlen mount ≤ 120 ∧ env.system (cstr "umount " ++ mount) ≠ -1)) :
    umount_stop env board mount = none := by
  unfold umount_stop
  rcases h with h | ⟨h1, h2⟩
  · simp [h]
  · simp [umount_cmd_fits mount h1, h2]

theorem resolv_stop_none (env : Env) (config : Json)
    (hfit : ∀ v, StrField config "nameserver" v → strlen v ≤ 116)
    (hwrite : ∀ buf, env.write buf ≠ -1) :
    resolv_stop env config = none := by
  unfold resolv_stop resolv_target
  cases hn : get_str_value config (cstr "nameserver") with
  | none => rfl
  | some v =>
    have hv := to_write_fits v (hfit v hn)
    by_cases h0 : v = []
    · simp [h0]
    · simp [h0, hv, hwrite]

theorem tolower_of_not_upper (c : Char) (h : c.isUpper = false) : tolower c = c := by
  unfold tolower Char.toLower
  unfold Char.isUpper at h
  simp only [ge_iff_le, Bool.and_eq_false_imp, decide_eq_true_eq, decide_eq_false_iff_not] at h
  have h1 : (65 ≤ c.val) = (65 ≤ c.toNat) := rfl
  have h2 : (c.val ≤ 90) = (c.toNat ≤ 90) := rfl
  rw [h1, h2] at h
  simp only []
  rw [if_neg]
  intro h3
  exact h h3.1 h3.2

/-- C3: when resolution gets through (the boardtype buffer being terminated,
so that the documents can be asked for) with owner field `owner`, the global
`owner_str` holds a string of the same length whose `i`-th character is the
lowercase of the `i`-th character of `owner`; so `MyOwner` becomes `myowner`
and an owner without uppercase letters is left as it is. -/
theorem owner_is_lowercased (env : Env) (settings config : Json)
    (config_file mount build board jid pass owner : CStr)
    (hterm : boardtype_terminated env.boardtype_read = true)
    (hl : Loads env settings config_file config)
    (hcf : Required settings "config_file" config_file)
    (hm : StrField settings "mountFile" mount)
    (hb : StrField settings "buildFile" build)
    (hbd : StrField settings "board" board)
    (hj : StrField config "jid" jid)
    (hp : StrField config "password" pass)
    (ho : StrField config "owner" owner)
    (hmem : ∀ k, env.strdup_ok k = true) :
    (∃ t, (run env).state.owner_str = some t ∧ strlen t = strlen owner ∧
      ∀ i (h : i < strlen owner), t[i]? = some (tolower (owner.get ⟨i, h⟩))) ∧
    (owner = cstr "MyOwner" → (run env).state.owner_str = some (cstr "myowner")) ∧
    ((∀ c ∈ owner, c.isUpper = false) → (run env).state.owner_str = some owner) := by
  have key : (run env).state.owner_str = some (owner.map tolower) := by
    rw [run_resolved env settings config config_file mount build board jid pass owner
      hterm hl hcf hm hb hbd hj hp ho hmem, (wtalk_rest_globals _ _ _).1]
    rfl
  refine ⟨⟨owner.map tolower, key, by simp [strlen], ?_⟩, ?_, ?_⟩
  · intro i h
    simp only [strlen] at h
    simp [List.getElem?_map, List.getElem?_eq_getElem h]
  · intro h
    rw [key, h]
    decide
  · intro h
    rw [key]
    congr 1
    conv_rhs => rw [← List.map_id owner]
    apply List.map_congr_left
    intro c hc
    exact tolower_of_not_upper c (h c hc)

/-- C1, at the failing input: with `mountFile` the empty string the run is not
fatal: it issues the command `umount ` and goes on to `xmpp_connect`. -/
theorem empty_mountFile_not_fatal :
    (run world_empty_mount).exit = .returned ∧
    system_calls (run world_empty_mount).state.trace = [cstr "umount "] ∧
    xmpp_calls (run world_empty_mount).state.trace =
      [(some (cstr "board@wyliodrin.org"), cstr "secret")] := by
  decide

theorem wifi_spawn_some (boardtype : CStr) (config : Json) (ssid psk : CStr)
    (hbt : boardtype = cstr "edison") (hssid : Required config "ssid" ssid)
    (hpsk : StrField config "psk" psk) :
    wifi_spawn boardtype config = some (ssid, psk) := by
  obtain ⟨h1, h2⟩ := hssid
  simp only [StrField] at h1 hpsk
  simp [wifi_spawn, hbt, h1, h2, hpsk]

/-- C4: on an edison board whose config document has a non-empty string
`ssid` and a string `psk`, a run that gets to the wifi block (resolution
passes; unless the board is `server`, the unmount command fits `umount_cmd`
and `system` does not return `-1`) forks exactly
once, and the forked child calls `execvp` once, with
`configure_edison --changeWiFi T ssid psk` where `T` is `OPEN` for the empty
`psk` and `WPA-PSK` otherwise; the parent never calls `execvp`. -/
theorem wifi_helper_spawned (env : Env) (settings config : Json)
    (config_file mount build board jid pass owner ssid psk : CStr)
    (hterm : boardtype_terminated env.boardtype_read = true)
    (hl : Loads env settings config_file config)
    (hcf : Required settings "config_file" config_file)
    (hm : StrField settings "mountFile" mount)
    (hb : StrField settings "buildFile" build)
    (hbd : StrField settings "board" board)
    (hj : StrField config "jid" jid)
    (hp : StrField config "password" pass)
    (ho : StrField config "owner" owner)
    (hmem : ∀ k, env.strdup_ok k = true)
    (hsys : board = cstr "server" ∨
      (strlen mount ≤ 120 ∧ env.system (cstr "umount " ++ mount) ≠ -1))
    (hbt : boardtype_buf env.boardtype_read = cstr "edison")
    (hssid : Required config "ssid" ssid)
    (hpsk : StrField config "psk" psk) :
    fork_calls (run env).state.trace = [env.fork_rc] ∧
    (env.fork_rc = 0 →
      execvp_calls (run env).state.trace =
        [[cstr "configure_edison", cstr "--changeWiFi",
          if psk = [] then cstr "OPEN" else cstr "WPA-PSK", ssid, psk]] ∧
      ((run env).exit = .exec ∨ (run env).exit = .exit_failure)) ∧
    (env.fork_rc ≠ 0 → execvp_calls (run env).state.trace = []) := by
  have hsp := wifi_spawn_some _ config ssid psk hbt hssid hpsk
  rw [run_resolved env settings config config_file mount build board jid pass owner
    hterm hl hcf hm hb hbd hj hp ho hmem, wtalk_rest_result]
  simp only [resolved_locals, umount_stop_none env board mount hsys]
  cases hW : wifi_stop env (boardtype_buf env.boardtype_read) config with
  | some e =>
    simp only [resolved_state, fork_calls_append, execvp_calls_append, fork_calls_wifi_evs,
      execvp_calls_wifi_evs, hsp, fork_calls_umount_evs, execvp_calls_umount_evs]
    unfold wifi_stop at hW
    rw [hsp] at hW
    refine ⟨by simp, ?_, ?_⟩
    · intro h0
      have h1 : env.fork_rc ≠ -1 := by omega
      simp only [h0, h1, if_true, if_false] at hW
      refine ⟨by simp [h0, wifi_args], ?_⟩
      cases h3 : env.execvp_ok <;> simp_all
    · intro h0
      simp [h0]
  | none =>
    unfold wifi_stop at hW
    rw [hsp] at hW
    have h0 : env.fork_rc ≠ 0 := by
      intro h0
      have h1 : env.fork_rc ≠ -1 := by omega
      cases h3 : env.execvp_ok <;> simp_all
    cases hR : resolv_stop env config <;>
      simp [resolved_state, fork_calls_wifi_evs, execvp_calls_wifi_evs, hsp, h0]

theorem setup_calls (evs : List Event) (h : evs.all Event.is_setup = true) :
    system_calls evs = [] ∧ fork_calls evs = [] ∧ execvp_calls evs = [] ∧
    waitpid_calls evs = [] ∧ write_calls evs = [] ∧ xmpp_calls evs = [] ∧
    RESOLV_PATH ∉ open_calls evs := by
  induction evs with
  | nil => simp
  | cons e t ih =>
    simp only [List.all_cons, Bool.and_eq_true] at h
    obtain ⟨h1, h2, h3, h4, h5, h6, h7⟩ := ih h.2
    have he := h.1
    cases e with
    | open_ pathname =>
      simp only [Event.is_setup, beq_iff_eq] at he
      simp [h1, h2, h3, h4, h5, h6, h7, he]
      decide
    | file_to_json_t filename => simp [h1, h2, h3, h4, h5, h6, h7]
    | _ => simp [Event.is_setup] at he

/-- The part of C1 that holds: a required field that is absent or not of
string type ends the run fatally before `xmpp_connect`, and so does an empty
`config_file`. -/
theorem missing_field_fatal (env : Env) (settings : Json)
    (hterm : boardtype_terminated env.boardtype_read = true)
    (hs : env.file_to_json_t (settings_path env) = some settings) :
    ((get_str_value settings (cstr "config_file") = none ∨
        get_str_value settings (cstr "config_file") = some [] ∨
        get_str_value settings (cstr "mountFile") = none ∨
        get_str_value settings (cstr "buildFile") = none ∨
        get_str_value settings (cstr "board") = none) →
      (run env).exit.is_fatal = true ∧ xmpp_calls (run env).state.trace = []) ∧
    (∀ config_file config, get_str_value settings (cstr "config_file") = some config_file →
      env.file_to_json_t config_file = some config →
      (get_str_value config (cstr "jid") = none ∨
        get_str_value config (cstr "password") = none ∨
        get_str_value config (cstr "owner") = none) →
      (run env).exit.is_fatal = true ∧ xmpp_calls (run env).state.trace = []) := by
  have hf := wtalk_resolve_frame env {}
  have hh := wtalk_resolve_halts_fatally env {} hterm
  have hsd := wtalk_resolve_sound env {}
  have key : (∀ r s1, wtalk_resolve env {} = .ok r s1 → False) →
      (run env).exit.is_fatal = true ∧ xmpp_calls (run env).state.trace = [] := by
    intro hno
    cases hr : wtalk_resolve env {} with
    | ok r s1 => exact absurd hr (fun h => hno r s1 h)
    | halt e s1 =>
      rw [hr] at hf hh
      obtain ⟨_, evs, htr, hall⟩ := hf
      simp only [Step.state] at htr
      obtain ⟨_, _, _, _, _, h6, _⟩ := setup_calls evs hall
      rw [run_of_halt env e s1 hr]
      simp only [htr]
      exact ⟨hh, by simp [h6]⟩
  constructor
  · intro h
    apply key
    intro r s1 hr
    rw [hr] at hsd
    have hset : r.settings_json = settings := by
      have := hsd.settings
      rw [hs] at this
      exact (Option.some.inj this).symm
    obtain ⟨cf, hc1, _, hc3⟩ := hsd.config
    obtain ⟨b, hb⟩ := hsd.build
    have hm := hsd.mount
    have hbd := hsd.board
    rw [hset] at hc1 hb hm hbd
    rcases h with h | h | h | h | h
    · rw [h] at hc1
      exact Option.noConfusion hc1
    · rw [h] at hc1
      exact hc3 (Option.some.inj hc1).symm
    · rw [h] at hm
      exact Option.noConfusion hm
    · rw [h] at hb
      exact Option.noConfusion hb
    · rw [h] at hbd
      exact Option.noConfusion hbd
  · intro config_file config hcf hc h
    apply key
    intro r s1 hr
    rw [hr] at hsd
    have hset : r.settings_json = settings := by
      have := hsd.settings
      rw [hs] at this
      exact (Option.some.inj this).symm
    obtain ⟨cf, hc1, hc2, _⟩ := hsd.config
    rw [hset, hcf] at hc1
    have hcfe : cf = config_file := (Option.some.inj hc1).symm
    rw [hcfe, hc] at hc2
    have hcon : r.config_json = config := (Option.some.inj hc2).symm
    obtain ⟨j, hj, _⟩ := hsd.jid
    obtain ⟨o, ho⟩ := hsd.owner
    have hp := hsd.password
    rw [hcon] at hj ho hp
    rcases h with h | h | h
    · rw [h] at hj
      exact Option.noConfusion hj
    · rw [h] at hp
      exact Option.noConfusion hp
    · rw [h] at ho
      exact Option.noConfusion ho

/-- C9, as stated, fails: when the umount command reports failure (`system`
returns 256) the run is not fatal and gets to `xmpp_connect`. -/
theorem failed_umount_not_fatal :
    (run world_umount_fails).exit = .returned ∧
    system_calls (run world_umount_fails).state.trace = [cstr "umount /wyliodrin/mount"] ∧
    xmpp_calls (run world_umount_fails).state.trace =
      [(some (cstr "board@wyliodrin.org"), cstr "secret")] := by
  decide

theorem wifi_stop_ne_system (env : Env) (boardtype : CStr) (config : Json) :
    wifi_stop env boardtype config ≠ some (.wsyserr "system") := by
  unfold wifi_stop
  repeat' split
  all_goals simp

theorem resolv_stop_ne_system (env : Env) (config : Json) :
    resolv_stop env config ≠ some (.wsyserr "system") := by
  unfold resolv_stop
  repeat' split
  all_goals simp

/-- C9, amended: when the board name is not `server`, resolution got
through and the unmount command fits `umount_cmd` (a `mountFile` value of at
most 120 bytes), the run ends with the fatal system error of `system` exactly when
`system` itself returns `-1`; it then has made no call after `system`: no
wifi step, no resolver rewrite, no `xmpp_connect`. Any other return value of
`system` is not inspected: the run does not end with that error, and when the
later calls succeed it goes on to `xmpp_connect`. -/
theorem umount_fatal_iff_system_fails (env : Env) (settings config : Json)
    (config_file mount build board jid pass owner : CStr)
    (hterm : boardtype_terminated env.boardtype_read = true)
    (hl : Loads env settings config_file config)
    (hcf : Required settings "config_file" config_file)
    (hm : StrField settings "mountFile" mount)
    (hb : StrField settings "buildFile" build)
    (hbd : StrField settings "board" board)
    (hj : StrField config "jid" jid)
    (hp : StrField config "password" pass)
    (ho : StrField config "owner" owner)
    (hmem : ∀ k, env.strdup_ok k = true)
    (hns : board ≠ cstr "server")
    (hmfit : strlen mount ≤ 120) :
    (env.system (cstr "umount " ++ mount) = -1 →
      (run env).exit = .wsyserr "system" ∧
      (run env).state.trace =
        [.open_ BOARDTYPE_PATH, .file_to_json_t (settings_path env),
          .file_to_json_t config_file, .system (cstr "umount " ++ mount)]) ∧
    (env.system (cstr "umount " ++ mount) ≠ -1 → (run env).exit ≠ .wsyserr "system") ∧
    (env.system (cstr "umount " ++ mount) ≠ -1 → 0 < env.fork_rc →
      (∀ v, StrField config "nameserver" v → strlen v ≤ 116) →
      (∀ buf, env.write buf ≠ -1) →
      (run env).exit = .returned ∧
      system_calls (run env).state.trace = [cstr "umount " ++ mount] ∧
      xmpp_calls (run env).state.trace = [(some jid, pass)]) := by
  have hfit := umount_cmd_fits mount hmfit
  rw [run_resolved env settings config config_file mount build board jid pass owner
    hterm hl hcf hm hb hbd hj hp ho hmem, wtalk_rest_result]
  simp only [resolved_locals]
  refine ⟨?_, ?_, ?_⟩
  · intro h
    have hU : umount_stop env board mount = some (.wsyserr "system") := by
      simp [umount_stop, hns, h, hfit]
    simp [hU, resolved_state, umount_evs, hns, hfit]
  · intro h
    rw [umount_stop_none env board mount (Or.inr ⟨hmfit, h⟩)]
    have hW := wifi_stop_ne_system env (boardtype_buf env.boardtype_read) config
    have hR := resolv_stop_ne_system env config
    cases hW1 : wifi_stop env (boardtype_buf env.boardtype_read) config with
    | some e =>
      rw [hW1] at hW
      simpa using hW
    | none =>
      cases hR1 : resolv_stop env config with
      | some e =>
        rw [hR1] at hR
        simpa using hR
      | none => simp
  · intro h hfork hnfit hwrite
    have hf1 : env.fork_rc ≠ -1 := by omega
    have hf0 : env.fork_rc ≠ 0 := by omega
    have hW : ∀ bt c, wifi_stop env bt c = none := by
      intro bt c
      unfold wifi_stop
      split <;> simp [hf1, hf0]
    rw [umount_stop_none env board mount (Or.inr ⟨hmfit, h⟩)]
    simp only [hW, resolv_stop_none env config hnfit hwrite]
    simp [resolved_state, system_calls_umount_evs, hns, hfit]

theorem wtalk_resolve_settings_first (env : Env) (s : State)
    (hopen : env.boardtype_open = true) (hread : env.boardtype_read ≠ none)
    (hterm : boardtype_terminated env.boardtype_read = true) :
    SettingsFirst env s (wtalk_resolve env s) := by
  have hfit := settings_path_fits env.boardtype_read
  simp only [wtalk_resolve, emit_bind, modify_bind, wsyserr_bind, wfatal_bind,
    wfatal_null_bind, wtalk_privacy_bind, overrun_bind, sprintf_bind, pure_apply]
  repeat' split
  all_goals simp_all [SettingsFirst, Step.state, settings_path]

set_option maxRecDepth 20000 in
/-- C10, as stated, fails, in three ways. With the boardtype file holding
`edison` and a newline, the only document asked for is the one whose name
holds the newline (so the run is fatal when the settings sit under
`settings_edison.json`), and when that document exists the wifi block does
not fork although `ssid` and `psk` are set, because the token is not
`edison`. With a boardtype file of 64 bytes the array `boardtype[64]` has no
terminator and no document is asked for at all. With the content `edison`,
NUL, `x` the token ends at the NUL: the document asked for is
`settings_edison.json`, not one named after the whole content. -/
theorem newline_not_trimmed :
    load_calls (run world_newline_trimmed_name).state.trace =
      [cstr "/etc/wyliodrin/settings_edison\n.json"] ∧
    (run world_newline_trimmed_name).exit = .wfatal "Invalid JSON is %s" ∧
    (run world_newline_raw_name).exit = .returned ∧
    fork_calls (run world_newline_raw_name).state.trace = [] ∧
    load_calls (run world_long_boardtype).state.trace = [] ∧
    (run world_long_boardtype).exit = .overrun "boardtype" ∧
    load_calls (run world_nul_boardtype).state.trace =
      [cstr "/etc/wyliodrin/settings_edison.json"] ∧
    (run world_nul_boardtype).exit = .wfatal "Invalid JSON is %s" := by
  decide

/-- C10, amended: for a boardtype file of fewer than 64 bytes, the board-type
token is the content of the file up to its first NUL, with no whitespace
trimmed; the first document asked for is `/etc/wyliodrin/settings_` followed
by the token followed by `.json`, and the token is what resolution hands on.
For the content `edison` (no newline) that is
`/etc/wyliodrin/settings_edison.json` and the token `edison`. -/
theorem boardtype_token_verbatim (env : Env) (bytes : CStr)
    (hopen : env.boardtype_open = true) (hread : env.boardtype_read = some bytes)
    (hlen : strlen bytes < 64) :
    (load_calls (run env).state.trace).head? =
      some (cstr "/etc/wyliodrin/settings_" ++
        bytes.takeWhile (fun c => c != Char.ofNat 0) ++ cstr ".json") ∧
    (∀ s r s1, wtalk_resolve env s = .ok r s1 →
      r.boardtype = bytes.takeWhile (fun c => c != Char.ofNat 0)) ∧
    (bytes = cstr "edison" →
      (load_calls (run env).state.trace).head? =
        some (cstr "/etc/wyliodrin/settings_edison.json") ∧
      ∀ s r s1, wtalk_resolve env s = .ok r s1 → r.boardtype = cstr "edison") := by
  have hne : env.boardtype_read ≠ none := by simp [hread]
  simp only [strlen] at hlen
  have htake : List.take 64 bytes = bytes := List.take_of_length_le (by omega)
  have hterm : boardtype_terminated env.boardtype_read = true := by
    simp [boardtype_terminated, hread, htake, hlen]
  have hbuf : boardtype_buf env.boardtype_read =
      bytes.takeWhile (fun c => c != Char.ofNat 0) := by
    simp [boardtype_buf, hread, htake]
  have hpath : settings_path env = cstr "/etc/wyliodrin/settings_" ++
      bytes.takeWhile (fun c => c != Char.ofNat 0) ++ cstr ".json" := by
    rw [settings_path, hbuf]
    rfl
  have htok : ∀ s r s1, wtalk_resolve env s = .ok r s1 →
      r.boardtype = bytes.takeWhile (fun c => c != Char.ofNat 0) := by
    intro s r s1 h
    have hs := wtalk_resolve_sound env s
    rw [h] at hs
    rw [hs.boardtype, hbuf]
  have hhead : (load_calls (run env).state.trace).head? = some (settings_path env) := by
    have hf := wtalk_resolve_settings_first env {} hopen hne hterm
    cases hr : wtalk_resolve env {} with
    | halt e s1 =>
      rw [hr] at hf
      obtain ⟨post, htr⟩ := hf
      simp only [Step.state] at htr
      rw [run_of_halt env e s1 hr]
      simp only [htr]
      simp
    | ok r s1 =>
      rw [hr] at hf
      obtain ⟨post, htr⟩ := hf
      simp only [Step.state] at htr
      rw [run_of_ok env r s1 hr, wtalk_rest_result]
      repeat' split
      all_goals simp [htr]
  refine ⟨by rw [hhead, hpath], htok, ?_⟩
  intro hb
  subst hb
  refine ⟨?_, ?_⟩
  · rw [hhead, hpath]
    decide
  · intro s r s1 h
    rw [htok s r s1 h]
    decide

/-! ## The theorems at concrete worlds -/

/-- C3 at the owner `MyOwner`. -/
theorem owner_is_lowercased_witness :
    (run (world_edison (cstr "secret") 4242)).state.owner_str = some (cstr "myowner") :=
  (owner_is_lowercased (world_edison (cstr "secret") 4242)
    edison_settings (full_config (cstr "secret")) CONFIG_PATH
    (cstr "/wyliodrin/mount") (cstr "/wyliodrin/build") (cstr "edison")
    (cstr "board@wyliodrin.org") (cstr "secret") (cstr "MyOwner")
    rfl ⟨rfl, by decide, rfl, rfl⟩ ⟨rfl, by decide⟩ rfl rfl rfl rfl rfl rfl
    (fun _ => rfl)).2.1 rfl

/-- C4 on the child side of the fork, for the empty `psk` and for the `psk`
`secret`. -/
theorem wifi_helper_spawned_witness :
    execvp_calls (run (world_edison (cstr "") 0)).state.trace =
      [[cstr "configure_edison", cstr "--changeWiFi", cstr "OPEN", cstr "home", cstr ""]] ∧
    execvp_calls (run (world_edison (cstr "secret") 0)).state.trace =
      [[cstr "configure_edison", cstr "--changeWiFi", cstr "WPA-PSK", cstr "home",
        cstr "secret"]] :=
  ⟨((wifi_helper_spawned (world_edison (cstr "") 0)
      edison_settings (full_config (cstr "")) CONFIG_PATH
      (cstr "/wyliodrin/mount") (cstr "/wyliodrin/build") (cstr "edison")
      (cstr "board@wyliodrin.org") (cstr "secret") (cstr "MyOwner") (cstr "home") (cstr "")
      rfl ⟨rfl, by decide, rfl, rfl⟩ ⟨rfl, by decide⟩ rfl rfl rfl rfl rfl rfl
      (fun _ => rfl) (Or.inr ⟨by decide, by decide⟩) rfl ⟨rfl, by decide⟩ rfl).2.1 rfl).1,
   ((wifi_helper_spawned (world_edison (cstr "secret") 0)
      edison_settings (full_config (cstr "secret")) CONFIG_PATH
      (cstr "/wyliodrin/mount") (cstr "/wyliodrin/build") (cstr "edison")
      (cstr "board@wyliodrin.org") (cstr "secret") (cstr "MyOwner") (cstr "home")
      (cstr "secret")
      rfl ⟨rfl, by decide, rfl, rfl⟩ ⟨rfl, by decide⟩ rfl rfl rfl rfl rfl rfl
      (fun _ => rfl) (Or.inr ⟨by decide, by decide⟩) rfl ⟨rfl, by decide⟩ rfl).2.1 rfl).1⟩

/-- C9, amended, at a raspberrypi board on which `system` returns `-1`. -/
theorem umount_fatal_iff_system_fails_witness :
    (run world_system_fails).exit = .wsyserr "system" ∧
    (run world_system_fails).state.trace =
      [.open_ BOARDTYPE_PATH,
        .file_to_json_t (cstr "/etc/wyliodrin/settings_raspberrypi.json"),
        .file_to_json_t CONFIG_PATH, .system (cstr "umount /wyliodrin/mount")] :=
  (umount_fatal_iff_system_fails world_system_fails
    (settings_doc (cstr "/wyliodrin/mount") (cstr "raspberrypi")) (config_doc []) CONFIG_PATH
    (cstr "/wyliodrin/mount") (cstr "/wyliodrin/build") (cstr "raspberrypi")
    (cstr "board@wyliodrin.org") (cstr "secret") (cstr "MyOwner")
    rfl ⟨rfl, by decide, rfl, rfl⟩ ⟨rfl, by decide⟩ rfl rfl rfl rfl rfl rfl
    (fun _ => rfl) (by decide) (by decide)).1 rfl

/-- C10, amended, at the boardtype content `edison`. -/
theorem boardtype_token_verbatim_witness :
    (load_calls (run (world_edison (cstr "secret") 4242)).state.trace).head? =
      some (cstr "/etc/wyliodrin/settings_edison.json") :=
  ((boardtype_token_verbatim (world_edison (cstr "secret") 4242) (cstr "edison")
    rfl rfl (by decide)).2.2 rfl).1

end WTalk
